import Mathlib

/-
Verification of the event ingestion, validation and delivery pipeline of the
marketing-events repository (gateway / NATS durable log / collectors).

The embedding models:
  * raw JSON payloads (`Json`), as received by the webhook endpoint;
  * the zod schemas of gateway/src/services/validation.service.ts
    (`facebookSchemaParse`, `tiktokSchemaParse`, `eventSchemaParse`) and the
    `ValidationService` methods built on them;
  * correlation-id generation (`generateCorrelationId` in
    webhook.controller.ts and the gateway MessagingRepository), with
    `Math.random().toString(36).substr(2, 9)` modelled by the list of base-36
    fraction digits of the drawn double (the characters printed after "0.");
  * the gateway pipeline `WebhookService.processEvent` /
    `WebhookController.receiveWebhook` / `MessagingRepository.publishEvent`,
    with broker publishes recorded in an explicit state and the
    non-deterministic inputs (clock, random draws) threaded explicitly;
  * the collector-side subscription wrapper of
    collectors/src/repositories/messaging.repository.ts and the startup logic
    of collectors/src/services/collector.service.ts.
-/

/-- Raw JSON values, the untyped input of the webhook endpoint.  JavaScript
numbers are modelled as integers (no claim depends on fractional values). -/
inductive Json where
  | null : Json
  | bool (b : Bool) : Json
  | num (n : Int) : Json
  | str (s : String) : Json
  | arr (elems : List Json) : Json
  | obj (fields : List (String × Json)) : Json
deriving Repr

/-- Key lookup in the field list of a JS object (JS objects hold each key at
most once; the first occurrence is taken). -/
def lookupField : List (String × Json) → String → Option Json
  | [], _ => none
  | (k', v) :: rest, k => if k' = k then some v else lookupField rest k

/-- JS property access `j[k]`: `none` both when the key is absent and when the
value is not an object at all (on `null`/scalars/arrays, `j?.k` is
`undefined` in JS). -/
def Json.getField : Json → String → Option Json
  | .obj fs, k => lookupField fs k
  | _, _ => none

/-- Returns `some s` iff the value is a JSON string (zod `z.string()`). -/
def Json.asStr : Json → Option String
  | .str s => some s
  | _ => none

/-- Returns `some n` iff the value is a JSON number (zod `z.number()`); in particular
a numeric-looking string is rejected, zod performs no coercion here. -/
def Json.asNum : Json → Option Int
  | .num n => some n
  | _ => none

/-- JS truthiness of a value (used by `x || 'unknown'` defaulting). -/
def Json.truthy : Json → Bool
  | .null => false
  | .bool b => b
  | .num n => n != 0
  | .str s => s ≠ ""
  | .arr _ => true
  | .obj _ => true

/-- Escape of a character inside a JSON string literal (quote and backslash;
enough for the payload-logging claims, which never inspect the text). -/
def escChar (c : Char) : String :=
  if c = '"' then "\\\"" else if c = '\\' then "\\\\" else String.mk [c]

/-- Escaped body of a JSON string literal. -/
def escapeStr (s : String) : String :=
  String.join (s.toList.map escChar)

mutual

/-- Model of `JSON.stringify` on a value (compact form, as node produces it). -/
def Json.serialize : Json → String
  | .null => "null"
  | .bool b => cond b "true" "false"
  | .num n => toString n
  | .str s => "\"" ++ escapeStr s ++ "\""
  | .arr xs => "[" ++ serializeElems xs ++ "]"
  | .obj fs => "\x7b" ++ serializeFields fs ++ "\x7d"

/-- Comma-separated serialization of array elements. -/
def serializeElems : List Json → String
  | [] => ""
  | [x] => Json.serialize x
  | x :: xs => Json.serialize x ++ "," ++ serializeElems xs

/-- Comma-separated serialization of object fields. -/
def serializeFields : List (String × Json) → String
  | [] => ""
  | [(k, v)] => "\"" ++ escapeStr k ++ "\":" ++ Json.serialize v
  | (k, v) :: fs => "\"" ++ escapeStr k ++ "\":" ++ Json.serialize v ++ "," ++ serializeFields fs

end

/-- The funnel stage, `top` or `bottom` (shared/types.ts `FunnelStage`). -/
inductive FunnelStage where
  | top : FunnelStage
  | bottom : FunnelStage
deriving Repr, DecidableEq

/-- The wire string of a funnel stage. -/
def FunnelStage.toStr : FunnelStage → String
  | .top => "top"
  | .bottom => "bottom"

/-- zod `z.enum(['top', 'bottom'])`. -/
def decodeStage : Json → Option FunnelStage
  | .str "top" => some .top
  | .str "bottom" => some .bottom
  | _ => none

/-- The gender enum of the Facebook user shape: male, female, non-binary. -/
inductive Gender where
  | male : Gender
  | female : Gender
  | nonBinary : Gender
deriving Repr, DecidableEq

/-- The wire string of a gender value. -/
def Gender.toStr : Gender → String
  | .male => "male"
  | .female => "female"
  | .nonBinary => "non-binary"

/-- zod `z.enum(['male', 'female', 'non-binary'])`. -/
def decodeGender : Json → Option Gender
  | .str "male" => some .male
  | .str "female" => some .female
  | .str "non-binary" => some .nonBinary
  | _ => none

/-- The `location` object (country, city) of the Facebook user shape. -/
structure FbLocation where
  country : String
  city : String
deriving Repr, DecidableEq

/-- The Facebook `data.user` shape (validation.service.ts lines 13-22). -/
structure FacebookUser where
  userId : String
  name : String
  age : Int
  gender : Gender
  location : FbLocation
deriving Repr, DecidableEq

/-- A value passing `FacebookEventSchema` (validation.service.ts lines 6-25).
`eventType` is a free string there (`z.string()`), and `engagement` is
`z.any()`, which also accepts an absent key, hence the `Option`. -/
structure FacebookEvent where
  eventId : String
  timestamp : String
  funnelStage : FunnelStage
  eventType : String
  user : FacebookUser
  engagement : Option Json
deriving Repr

/-- The TikTok `data.user` shape (validation.service.ts lines 34-38). -/
structure TiktokUser where
  userId : String
  username : String
  followers : Int
deriving Repr, DecidableEq

/-- A value passing `TiktokEventSchema` (validation.service.ts lines 27-41). -/
structure TiktokEvent where
  eventId : String
  timestamp : String
  funnelStage : FunnelStage
  eventType : String
  user : TiktokUser
  engagement : Option Json
deriving Repr

/-- The tagged union `Event = FacebookEvent | TiktokEvent`. -/
inductive Event where
  | fb (e : FacebookEvent) : Event
  | tt (e : TiktokEvent) : Event
deriving Repr

/-- The `source` discriminant of a validated event. -/
def Event.source : Event → String
  | .fb _ => "facebook"
  | .tt _ => "tiktok"

/-- The funnel stage of a validated event, as a wire string. -/
def Event.stageStr : Event → String
  | .fb e => e.funnelStage.toStr
  | .tt e => e.funnelStage.toStr

/-- The `eventType` field of a validated event. -/
def Event.eventType : Event → String
  | .fb e => e.eventType
  | .tt e => e.eventType

/-- The `eventId` field of a validated event. -/
def Event.eventId : Event → String
  | .fb e => e.eventId
  | .tt e => e.eventId

/-- The `engagement` key of the rendered `data` object; absent when the parsed
value had none (zod `z.any()` leaves an absent key absent in effect). -/
def engagementFields : Option Json → List (String × Json)
  | some g => [("engagement", g)]
  | none => []

/-- The JS object a `FacebookEvent` denotes: keys in schema order, exactly the
schema keys (zod `.parse` strips unknown keys and rebuilds the object). -/
def FacebookEvent.renderFields (e : FacebookEvent) : List (String × Json) :=
  [("eventId", .str e.eventId),
   ("timestamp", .str e.timestamp),
   ("source", .str "facebook"),
   ("funnelStage", .str e.funnelStage.toStr),
   ("eventType", .str e.eventType),
   ("data", .obj
     ([("user", .obj
       [("userId", .str e.user.userId),
        ("name", .str e.user.name),
        ("age", .num e.user.age),
        ("gender", .str e.user.gender.toStr),
        ("location", .obj
          [("country", .str e.user.location.country),
           ("city", .str e.user.location.city)])])]
      ++ engagementFields e.engagement))]

/-- The JSON value a `FacebookEvent` denotes. -/
def FacebookEvent.render (e : FacebookEvent) : Json :=
  .obj e.renderFields

/-- The JS object a `TiktokEvent` denotes, in schema key order. -/
def TiktokEvent.renderFields (e : TiktokEvent) : List (String × Json) :=
  [("eventId", .str e.eventId),
   ("timestamp", .str e.timestamp),
   ("source", .str "tiktok"),
   ("funnelStage", .str e.funnelStage.toStr),
   ("eventType", .str e.eventType),
   ("data", .obj
     ([("user", .obj
       [("userId", .str e.user.userId),
        ("username", .str e.user.username),
        ("followers", .num e.user.followers)])]
      ++ engagementFields e.engagement))]

/-- The JSON value a `TiktokEvent` denotes. -/
def TiktokEvent.render (e : TiktokEvent) : Json :=
  .obj e.renderFields

/-- The field list of the JS object a validated event denotes. -/
def Event.renderFields : Event → List (String × Json)
  | .fb e => e.renderFields
  | .tt e => e.renderFields

/-- The JSON value a validated event denotes. -/
def Event.render : Event → Json
  | .fb e => e.render
  | .tt e => e.render

/-- zod `z.literal(lit)` applied to field `k` of `j`. -/
def reqLit (j : Json) (k lit : String) : Option Unit :=
  (j.getField k).bind fun v =>
    match v with
    | .str t => if t = lit then some () else none
    | _ => none

/-- Required string field (`k: z.string()`). -/
def reqStr (j : Json) (k : String) : Option String :=
  (j.getField k).bind Json.asStr

/-- Required number field (`k: z.number()`). -/
def reqNum (j : Json) (k : String) : Option Int :=
  (j.getField k).bind Json.asNum

/-- Model of `FacebookEventSchema.parse` on the `data.user` object. -/
def facebookUserParse (u : Json) : Option FacebookUser :=
  (reqStr u "userId").bind fun userId =>
  (reqStr u "name").bind fun name =>
  (reqNum u "age").bind fun age =>
  ((u.getField "gender").bind decodeGender).bind fun gender =>
  (u.getField "location").bind fun loc =>
  (reqStr loc "country").bind fun country =>
  (reqStr loc "city").bind fun city =>
  some ⟨userId, name, age, gender, ⟨country, city⟩⟩

/-- Model of `FacebookEventSchema.parse`: succeeds exactly on values matching the
Facebook shape, returning the parsed (rebuilt) event. -/
def facebookSchemaParse (j : Json) : Option FacebookEvent :=
  (reqStr j "eventId").bind fun eventId =>
  (reqStr j "timestamp").bind fun timestamp =>
  (reqLit j "source" "facebook").bind fun _ =>
  ((j.getField "funnelStage").bind decodeStage).bind fun stage =>
  (reqStr j "eventType").bind fun eventType =>
  (j.getField "data").bind fun d =>
  (d.getField "user").bind fun u =>
  (facebookUserParse u).bind fun user =>
  some ⟨eventId, timestamp, stage, eventType, user, d.getField "engagement"⟩

/-- Model of `TiktokEventSchema.parse` on the `data.user` object. -/
def tiktokUserParse (u : Json) : Option TiktokUser :=
  (reqStr u "userId").bind fun userId =>
  (reqStr u "username").bind fun username =>
  (reqNum u "followers").bind fun followers =>
  some ⟨userId, username, followers⟩

/-- Model of `TiktokEventSchema.parse`. -/
def tiktokSchemaParse (j : Json) : Option TiktokEvent :=
  (reqStr j "eventId").bind fun eventId =>
  (reqStr j "timestamp").bind fun timestamp =>
  (reqLit j "source" "tiktok").bind fun _ =>
  ((j.getField "funnelStage").bind decodeStage).bind fun stage =>
  (reqStr j "eventType").bind fun eventType =>
  (j.getField "data").bind fun d =>
  (d.getField "user").bind fun u =>
  (tiktokUserParse u).bind fun user =>
  some ⟨eventId, timestamp, stage, eventType, user, d.getField "engagement"⟩

/-- Detail text of a zod issue list; zod's per-field wording is abstracted
(the claims under verification depend only on the templates the service
wraps around it). -/
def zodIssueText : String := "schema validation issue"

/-- Model of `ValidationService.validateEvent`: `EventSchema = z.union([Facebook,
Tiktok])` tried in order, wrapped in `BadRequestException('Invalid event
format: ...')` on failure (validation.service.ts lines 49-67). -/
def validateEvent (j : Json) : Except String Event :=
  match facebookSchemaParse j with
  | some e => .ok (.fb e)
  | none =>
    match tiktokSchemaParse j with
    | some e => .ok (.tt e)
    | none => .error ("Invalid event format: " ++ zodIssueText)

/-- The message of the exception `validateFacebookEvent` throws
(validation.service.ts line 73). -/
def facebookErrorMessage : String :=
  "Invalid Facebook event format: " ++ zodIssueText

/-- The message of the exception `validateTiktokEvent` throws
(validation.service.ts line 81). -/
def tiktokErrorMessage : String :=
  "Invalid TikTok event format: " ++ zodIssueText

/-- Model of `ValidationService.validateFacebookEvent` (lines 69-75). -/
def validateFacebookEvent (j : Json) : Except String FacebookEvent :=
  match facebookSchemaParse j with
  | some e => .ok e
  | none => .error facebookErrorMessage

/-- Model of `ValidationService.validateTiktokEvent` (lines 77-83). -/
def validateTiktokEvent (j : Json) : Except String TiktokEvent :=
  match tiktokSchemaParse j with
  | some e => .ok e
  | none => .error tiktokErrorMessage

/-- The character printed for a single decimal digit. -/
def digitChar10 : Nat → Char
  | 0 => '0'
  | 1 => '1'
  | 2 => '2'
  | 3 => '3'
  | 4 => '4'
  | 5 => '5'
  | 6 => '6'
  | 7 => '7'
  | 8 => '8'
  | 9 => '9'
  | _ => '?'

/-- Decimal digits of a positive number, most significant first; the first
argument is fuel (at least the number itself) making the recursion
structural. -/
def natDigitsAux : Nat → Nat → List Char
  | 0, _ => []
  | _ + 1, 0 => []
  | fuel + 1, n + 1 =>
    natDigitsAux fuel ((n + 1) / 10) ++ [digitChar10 ((n + 1) % 10)]

/-- The decimal rendering of a `Nat`, as JS prints `Date.now()` into the
template string. -/
def natDecimalChars (n : Nat) : List Char :=
  if n = 0 then ['0'] else natDigitsAux n n

/-- The character of a base-36 digit, as `Number.prototype.toString(36)`
prints it: `0`-`9` then `a`-`z`. -/
def base36Char (d : Fin 36) : Char :=
  if d.val < 10 then digitChar10 d.val else Char.ofNat (97 + (d.val - 10))

/-- Model of `Math.random().toString(36).substr(2, 9)`: the first nine characters
after the leading `0.` of the drawn double's base-36 rendering.  The draw is
modelled by its printed fraction-digit list `digits`; a terminating expansion
(e.g. `Math.random() = 0.5`, printed `0.i`) yields fewer than nine digits and
hence a shorter suffix. -/
def randomSuffixChars (digits : List (Fin 36)) : List Char :=
  (digits.take 9).map base36Char

/-- Model of `generateCorrelationId` of webhook.controller.ts (lines 40-42) and of the
gateway MessagingRepository (identical code): the template string
concatenation, with the `Date.now()` draw `t` and the `Math.random()` draw
`digits`. -/
def generateCorrelationId (t : Nat) (digits : List (Fin 36)) : String :=
  "gateway-" ++ String.mk (natDecimalChars t) ++ "-" ++ String.mk (randomSuffixChars digits)

/-- Model of `correlationId || this.generateCorrelationId()`: a supplied id is used
exactly when it is a truthy (non-empty) string; an absent or empty header
falls back to generation. -/
def resolveCorrelationId (supplied : Option String) (t : Nat) (digits : List (Fin 36)) : String :=
  match supplied with
  | some s => if s = "" then generateCorrelationId t digits else s
  | none => generateCorrelationId t digits

/-- Metric counter names of `MetricsService.recordMetric` and the duration
histogram of `recordProcessingDuration`. -/
inductive MetricKind where
  | accepted : MetricKind
  | processed : MetricKind
  | failed : MetricKind
  | duration : MetricKind
deriving Repr, DecidableEq

/-- One recorded metric with its labels.  Labels are JSON values because the
failure path passes raw `eventData?.source` through unchanged when truthy,
whatever its type. -/
structure MetricEvent where
  kind : MetricKind
  sourceLabel : Json
  eventTypeLabel : Json
  funnelStageLabel : Option String
  errorLabel : Option String
deriving Repr

/-- Model of `eventData?.x || 'unknown'`: the best-effort label taken from a raw
payload — the raw field value when present and truthy, `"unknown"`
otherwise (also for payloads that are not objects at all). -/
def jsLabel (j : Json) (k : String) : Json :=
  match j.getField k with
  | some v => if v.truthy then v else .str "unknown"
  | none => .str "unknown"

/-- State threaded through the gateway pipeline: the durable log as the list
of `(subject, envelope)` publishes, the recorded metrics, the stream of
pending `(Date.now(), Math.random())` draws feeding `generateCorrelationId`,
and the ISO timestamp `new Date().toISOString()` would print. -/
structure GatewayState where
  published : List (String × Json)
  metrics : List MetricEvent
  draws : List (Nat × List (Fin 36))
  nowIso : String
deriving Repr

/-- The draw the next `generateCorrelationId()` call consumes. -/
def GatewayState.peekDraw (st : GatewayState) : Nat × List (Fin 36) :=
  st.draws.headD (0, [])

/-- Runs one `generateCorrelationId()` call: produces the id and consumes the
draw. -/
def genCorrelationId (st : GatewayState) : String × GatewayState :=
  (generateCorrelationId st.peekDraw.1 st.peekDraw.2, { st with draws := st.draws.tail })

/-- Model of `correlationId || this.generateCorrelationId()` with the generator state:
the generating call (and its draw) happens only when the supplied value is
falsy, as `||` short-circuits. -/
def resolveOrGenerate (supplied : Option String) (st : GatewayState) : String × GatewayState :=
  match supplied with
  | some s => if s = "" then genCorrelationId st else (s, st)
  | none => genCorrelationId st

/-- Model of `MessagingRepository.buildSubject` of the gateway (part_003 lines 51-53). -/
def buildSubject (e : Event) : String :=
  "events." ++ e.source ++ "." ++ e.stageStr

/-- Model of `MessagingRepository.publishEvent` of the gateway (part_003 lines 13-49):
builds the subject, spreads the validated event into the envelope together
with `correlationId` (supplied or generated) and the system-assigned
`receivedAt`, and hands the envelope to the durable log. -/
def publishEvent (e : Event) (correlationId : Option String) (st : GatewayState) : GatewayState :=
  let subject := buildSubject e
  let (cid, st) := resolveOrGenerate correlationId st
  let envelope := Json.obj (e.renderFields ++
    [("correlationId", .str cid), ("receivedAt", .str st.nowIso)])
  { st with published := st.published ++ [(subject, envelope)] }

/-- The value `WebhookService.processEvent` resolves with. -/
structure ProcessResult where
  success : Bool
  eventId : Option String
deriving Repr, DecidableEq

/-- Appends one recorded metric. -/
def GatewayState.record (st : GatewayState) (m : MetricEvent) : GatewayState :=
  { st with metrics := st.metrics ++ [m] }

/-- Model of `WebhookService.processEvent` (part_002 lines 18-66): validate, record
`accepted`, publish, record `processed` and the duration observation, return
`\x7bsuccess: true, eventId\x7d`; on a validation error record a `failed`
metric labeled best-effort from the raw payload and rethrow the error
unchanged.  The broker itself is modelled as available, so the catch branch
is reached exactly by validation failures. -/
def processEvent (eventData : Json) (correlationId : Option String) (st : GatewayState) :
    Except String ProcessResult × GatewayState :=
  match validateEvent eventData with
  | .error m =>
    (.error m, st.record
      ⟨.failed, jsLabel eventData "source", jsLabel eventData "eventType", none, some m⟩)
  | .ok e =>
    let st := st.record ⟨.accepted, .str e.source, .str e.eventType, some e.stageStr, none⟩
    let st := publishEvent e correlationId st
    let st := st.record ⟨.processed, .str e.source, .str e.eventType, some e.stageStr, none⟩
    let st := st.record ⟨.duration, .str e.source, .str e.eventType, none, none⟩
    (.ok ⟨true, some e.eventId⟩, st)

/-- The body `WebhookController.receiveWebhook` responds with. -/
structure WebhookResponse where
  success : Bool
  eventId : Option String
  correlationId : String
deriving Repr, DecidableEq

/-- Model of `WebhookController.receiveWebhook` (webhook.controller.ts lines 14-38):
forwards body and header to `processEvent`, then builds the response with
`correlationId: correlationId || this.generateCorrelationId()` — a second,
independent generator call when no header was supplied; errors are rethrown. -/
def receiveWebhook (body : Json) (headerCorrelationId : Option String) (st : GatewayState) :
    Except String WebhookResponse × GatewayState :=
  match processEvent body headerCorrelationId st with
  | (.ok r, st) =>
    let (cid, st) := resolveOrGenerate headerCorrelationId st
    (.ok ⟨r.success, r.eventId, cid⟩, st)
  | (.error m, st) => (.error m, st)

/-- The error log line of the collector subscription wrapper: subject,
serialized payload and the error message
(collectors messaging.repository.ts lines 48-51). -/
structure SubLogEntry where
  subject : String
  payload : String
  errorMessage : String
deriving Repr, DecidableEq

/-- The handler wrapper `MessagingRepository.subscribe` registers
(collectors messaging.repository.ts lines 36-53): extracts
`data.correlationId`, invokes the handler, and catches anything the handler
throws, turning it into an error log entry carrying the subject and
`JSON.stringify(data)` — nothing propagates into the subscription loop. -/
def wrapMessage {α : Type} (handler : Json → Option Json → Except String α)
    (subject : String) (msg : Json) : Sum α SubLogEntry :=
  match handler msg (msg.getField "correlationId") with
  | .ok a => .inl a
  | .error e => .inr ⟨subject, Json.serialize msg, e⟩

/-- The subscription loop: each delivered message is handed once to the
wrapped handler (NatsService.subscribe iterates the subscription and calls
the registered callback per message). -/
def runSubscription {α : Type} (handler : Json → Option Json → Except String α)
    (subject : String) : List Json → List (Sum α SubLogEntry)
  | [] => []
  | msg :: rest => wrapMessage handler subject msg :: runSubscription handler subject rest

/-- What `CollectorService.onModuleInit` did: which stream subjects were
declared, which `(subject, consumer group)` subscriptions were made, and
which warnings were logged. -/
structure CollectorInit where
  streamSubjects : List String
  subscriptions : List (String × String)
  warnings : List String
deriving Repr, DecidableEq

/-- Model of `process.env.COLLECTOR_TYPE || 'unknown'` (collector.service.ts line 16). -/
def collectorTypeOf (env : Option String) : String :=
  match env with
  | some s => if s = "" then "unknown" else s
  | none => "unknown"

/-- Model of `CollectorService.onModuleInit` (collector.service.ts lines 19-41 with
the subscribe helpers at lines 48-89): after declaring the four stream
subjects, a `facebook` collector subscribes to the two Facebook subjects
under their stable consumer groups, a `tiktok` collector to the two TikTok
ones, and any other type subscribes to nothing and logs a warning.  The
broker calls are modelled as succeeding; the unknown branch performs none
of them, so startup completes. -/
def collectorInit (collectorType : String) : CollectorInit :=
  let streams := ["events.facebook.top", "events.facebook.bottom",
                  "events.tiktok.top", "events.tiktok.bottom"]
  if collectorType = "facebook" then
    ⟨streams,
     [("events.facebook.top", "facebook-collector-top"),
      ("events.facebook.bottom", "facebook-collector-bottom")], []⟩
  else if collectorType = "tiktok" then
    ⟨streams,
     [("events.tiktok.top", "tiktok-collector-top"),
      ("events.tiktok.bottom", "tiktok-collector-bottom")], []⟩
  else
    ⟨streams, [], ["Unknown collector type: " ++ collectorType]⟩

/-- Decimal digit test, as in the spec's generated-id format. -/
def isDigitChar (c : Char) : Bool :=
  decide ('0' ≤ c) && decide (c ≤ '9')

/-- Lowercase alphanumeric test, as in the spec's generated-id format. -/
def isLowerAlnum (c : Char) : Bool :=
  isDigitChar c || (decide ('a' ≤ c) && decide (c ≤ 'z'))

/-- Strips an expected leading character sequence; `none` when it does not
match. -/
def dropLead : List Char → List Char → Option (List Char)
  | [], cs => some cs
  | _ :: _, [] => none
  | p :: ps, c :: cs => if c = p then dropLead ps cs else none

/-- Splits off the maximal leading run of decimal digits. -/
def splitDigits : List Char → List Char × List Char
  | [] => ([], [])
  | c :: cs =>
    if isDigitChar c then
      let (a, b) := splitDigits cs
      (c :: a, b)
    else ([], c :: cs)

/-- After the `gateway-` prefix: one or more decimal digits (the split's
first component), then a dash and exactly nine lowercase alphanumeric
characters. -/
def specGenFormatTail : List Char × List Char → Bool
  | ([], _) => false
  | (_ :: _, '-' :: suffix) => suffix.length == 9 && suffix.all isLowerAlnum
  | (_ :: _, _) => false

/-- Modelled from the spec: the generated-correlation-id format
`gateway-<unixMillis>-<9-char lowercase alphanumeric>` as a checker —
the literal prefix, one or more decimal digits, a dash, and exactly nine
lowercase alphanumeric characters. -/
def specGenFormatChars (cs : List Char) : Bool :=
  ((dropLead "gateway-".toList cs).map fun rest =>
    specGenFormatTail (splitDigits rest)).getD false

/-- The spec's generated-id format, on strings. -/
def specGenFormat (s : String) : Bool :=
  specGenFormatChars s.toList

/-- Char-list analogue of `String.startsWith` for the substring scan. -/
def leadsWith : List Char → List Char → Bool
  | [], _ => true
  | _ :: _, [] => false
  | n :: ns, h :: hs => (n = h : Bool) && leadsWith ns hs

/-- Whether `needle` occurs as a contiguous subsequence of the haystack. -/
def seqContains (needle : List Char) : List Char → Bool
  | [] => needle.isEmpty
  | c :: cs => leadsWith needle (c :: cs) || seqContains needle cs

/-- Whether the string `hay` mentions `needle` as a substring. -/
def strMentions (hay needle : String) : Bool :=
  seqContains needle.toList hay.toList

/-- The `mockFacebookEvent` fixture of the repository's test-utils: the valid
Facebook `ad.view` top-funnel event with `eventId` `fb-event-123`. -/
def mockFacebookEvent : FacebookEvent :=
  { eventId := "fb-event-123", timestamp := "2024-01-15T10:00:00Z",
    funnelStage := .top, eventType := "ad.view",
    user := { userId := "user-123", name := "John Doe", age := 28, gender := .male,
              location := { country := "US", city := "New York" } },
    engagement := some (.obj
      [("actionTime", .str "2024-01-15T10:00:00Z"),
       ("referrer", .str "newsfeed"),
       ("videoId", .str "video-123")]) }

/-- The raw JSON body of the mock Facebook event. -/
def mockBody : Json :=
  (Event.fb mockFacebookEvent).render

/-- A gateway state with an empty log and no pending draws. -/
def emptyState : GatewayState :=
  { published := [], metrics := [], draws := [], nowIso := "2024-01-15T10:00:01.000Z" }

/-- A gateway state with two pending correlation draws taken at the same
millisecond whose random components differ: the first random draw prints the
base-36 fraction `aaaaaaaaa`, the second `bbbbbbbbb`. -/
def twoDrawState : GatewayState :=
  { published := [], metrics := [],
    draws := [(1700000000100, List.replicate 9 ((10 : Fin 36))),
              (1700000000100, List.replicate 9 ((11 : Fin 36)))],
    nowIso := "2024-01-15T10:00:01.000Z" }

/-- The invalid payload of end-to-end scenario 2. -/
def invalidPayload : Json :=
  .obj [("invalid", .str "data")]

/-- A message handler that always throws. -/
def failingHandler : Json → Option Json → Except String Unit :=
  fun _ _ => .error "boom"

theorem facebookParse_render (e : FacebookEvent) :
    facebookSchemaParse e.render = some e := by
  obtain ⟨eid, ts, stage, et, ⟨uid, nm, age, g, ⟨co, ci⟩⟩, eng⟩ := e
  cases stage <;> cases g <;> cases eng <;> rfl

theorem tiktokParse_render (e : TiktokEvent) :
    tiktokSchemaParse e.render = some e := by
  obtain ⟨eid, ts, stage, et, ⟨uid, un, fol⟩, eng⟩ := e
  cases stage <;> cases eng <;> rfl

theorem facebookParse_ttRender (e : TiktokEvent) :
    facebookSchemaParse e.render = none := by
  rfl

theorem eventValidate_render (e : Event) : validateEvent e.render = .ok e := by
  cases e with
  | fb e => simp [validateEvent, Event.render, facebookParse_render]
  | tt e => simp [validateEvent, Event.render, facebookParse_ttRender, tiktokParse_render]

theorem bind_some_elim {α β : Type} {x : Option α} {f : α → Option β} {b : β}
    (h : x.bind f = some b) : ∃ a, x = some a ∧ f a = some b :=
  Option.bind_eq_some'.mp h

theorem reqLit_some {j : Json} {k lit : String} {u : Unit}
    (h : reqLit j k lit = some u) : j.getField k = some (.str lit) := by
  obtain ⟨v, hv, hm⟩ := bind_some_elim h
  cases v with
  | str t =>
    rw [hv]
    by_cases ht : t = lit
    · rw [ht]
    · simp [ht] at hm
  | null => exact absurd hm (by simp)
  | bool b => exact absurd hm (by simp)
  | num n => exact absurd hm (by simp)
  | arr xs => exact absurd hm (by simp)
  | obj fs => exact absurd hm (by simp)

theorem facebookUserParse_some {u : Json} {r : FacebookUser}
    (h : facebookUserParse u = some r) :
    (∃ va, u.getField "age" = some va ∧ va.asNum.isSome) ∧
    (∃ vg, u.getField "gender" = some vg ∧ vg.asStr.isSome) := by
  unfold facebookUserParse reqStr reqNum at h
  obtain ⟨uid, h1, h⟩ := bind_some_elim h
  obtain ⟨nm, h2, h⟩ := bind_some_elim h
  obtain ⟨age, h3, h⟩ := bind_some_elim h
  obtain ⟨g, h4, h⟩ := bind_some_elim h
  obtain ⟨va, hva, hva2⟩ := bind_some_elim h3
  obtain ⟨vg, hvg, hvg2⟩ := bind_some_elim h4
  refine ⟨⟨va, hva, by simp [hva2]⟩, ⟨vg, hvg, ?_⟩⟩
  cases vg with
  | str t => simp [Json.asStr]
  | null => exact absurd hvg2 (by simp [decodeGender])
  | bool b => exact absurd hvg2 (by simp [decodeGender])
  | num n => exact absurd hvg2 (by simp [decodeGender])
  | arr xs => exact absurd hvg2 (by simp [decodeGender])
  | obj fs => exact absurd hvg2 (by simp [decodeGender])

theorem facebookParse_some {j : Json} {e : FacebookEvent}
    (h : facebookSchemaParse j = some e) :
    j.getField "source" = some (.str "facebook") ∧
    ∃ d u r, j.getField "data" = some d ∧ d.getField "user" = some u ∧
      facebookUserParse u = some r := by
  unfold facebookSchemaParse at h
  obtain ⟨eid, h1, h⟩ := bind_some_elim h
  obtain ⟨ts, h2, h⟩ := bind_some_elim h
  obtain ⟨sv, h3, h⟩ := bind_some_elim h
  obtain ⟨st, h4, h⟩ := bind_some_elim h
  obtain ⟨et, h5, h⟩ := bind_some_elim h
  obtain ⟨d, h6, h⟩ := bind_some_elim h
  obtain ⟨u, h7, h⟩ := bind_some_elim h
  obtain ⟨r, h8, h⟩ := bind_some_elim h
  exact ⟨reqLit_some h3, d, u, r, h6, h7, h8⟩

theorem tiktokUserParse_some {u : Json} {r : TiktokUser}
    (h : tiktokUserParse u = some r) :
    ∃ vf, u.getField "followers" = some vf ∧ vf.asNum.isSome := by
  unfold tiktokUserParse reqStr reqNum at h
  obtain ⟨uid, h1, h⟩ := bind_some_elim h
  obtain ⟨un, h2, h⟩ := bind_some_elim h
  obtain ⟨fol, h3, h⟩ := bind_some_elim h
  obtain ⟨vf, hvf, hvf2⟩ := bind_some_elim h3
  exact ⟨vf, hvf, by simp [hvf2]⟩

theorem tiktokParse_some {j : Json} {e : TiktokEvent}
    (h : tiktokSchemaParse j = some e) :
    j.getField "source" = some (.str "tiktok") ∧
    ∃ d u r, j.getField "data" = some d ∧ d.getField "user" = some u ∧
      tiktokUserParse u = some r := by
  unfold tiktokSchemaParse at h
  obtain ⟨eid, h1, h⟩ := bind_some_elim h
  obtain ⟨ts, h2, h⟩ := bind_some_elim h
  obtain ⟨sv, h3, h⟩ := bind_some_elim h
  obtain ⟨st, h4, h⟩ := bind_some_elim h
  obtain ⟨et, h5, h⟩ := bind_some_elim h
  obtain ⟨d, h6, h⟩ := bind_some_elim h
  obtain ⟨u, h7, h⟩ := bind_some_elim h
  obtain ⟨r, h8, h⟩ := bind_some_elim h
  exact ⟨reqLit_some h3, d, u, r, h6, h7, h8⟩

theorem strData_append (a b : String) : (a ++ b).data = a.data ++ b.data := by
  obtain ⟨la⟩ := a
  obtain ⟨lb⟩ := b
  rfl

theorem strData_mk (l : List Char) : (String.mk l).data = l := rfl

theorem digitChar10_isDigit {m : Nat} (h : m < 10) :
    isDigitChar (digitChar10 m) = true := by
  interval_cases m <;> decide

theorem natDigitsAux_digits (fuel : Nat) :
    ∀ n c, c ∈ natDigitsAux fuel n → isDigitChar c = true := by
  induction fuel with
  | zero => intro n c hc; simp [natDigitsAux] at hc
  | succ fuel ih =>
    intro n c hc
    cases n with
    | zero => simp [natDigitsAux] at hc
    | succ m =>
      rw [natDigitsAux, List.mem_append] at hc
      rcases hc with hc | hc
      · exact ih _ _ hc
      · rw [List.mem_singleton] at hc
        subst hc
        exact digitChar10_isDigit (Nat.mod_lt _ (by omega))

theorem natDecimalChars_digits (n : Nat) :
    ∀ c ∈ natDecimalChars n, isDigitChar c = true := by
  intro c hc
  unfold natDecimalChars at hc
  by_cases hn : n = 0
  · simp [hn] at hc
    subst hc; decide
  · rw [if_neg hn] at hc
    exact natDigitsAux_digits n n c hc

theorem natDigitsAux_ne_nil (fuel m : Nat) :
    natDigitsAux (fuel + 1) (m + 1) ≠ [] := by
  rw [natDigitsAux]
  simp

theorem natDecimalChars_ne_nil (n : Nat) : natDecimalChars n ≠ [] := by
  unfold natDecimalChars
  by_cases hn : n = 0
  · simp [hn]
  · rw [if_neg hn]
    obtain ⟨m, rfl⟩ := Nat.exists_eq_succ_of_ne_zero hn
    exact natDigitsAux_ne_nil m m

theorem dropLead_append (ps cs : List Char) : dropLead ps (ps ++ cs) = some cs := by
  induction ps with
  | nil => rfl
  | cons p ps ih => simp [dropLead, ih]

theorem splitDigits_append {ds : List Char} (hds : ∀ c ∈ ds, isDigitChar c = true)
    {c0 : Char} (hc0 : isDigitChar c0 = false) (rest : List Char) :
    splitDigits (ds ++ c0 :: rest) = (ds, c0 :: rest) := by
  induction ds with
  | nil => simp [splitDigits, hc0]
  | cons d ds ih =>
    have hd : isDigitChar d = true := hds d (by simp)
    have ih2 := ih (fun c hc => hds c (by simp [hc]))
    simp [splitDigits, hd, ih2]

theorem base36Char_lowerAlnum : ∀ d : Fin 36, isLowerAlnum (base36Char d) = true := by
  decide

theorem randomSuffixChars_length (digits : List (Fin 36)) :
    (randomSuffixChars digits).length = min 9 digits.length := by
  unfold randomSuffixChars
  simp

theorem randomSuffixChars_lowerAlnum (digits : List (Fin 36)) :
    ∀ c ∈ randomSuffixChars digits, isLowerAlnum c = true := by
  intro c hc
  unfold randomSuffixChars at hc
  rw [List.mem_map] at hc
  obtain ⟨d, _, rfl⟩ := hc
  exact base36Char_lowerAlnum d

theorem specGenFormat_of_long_draw (t : Nat) (digits : List (Fin 36))
    (hlen : 9 ≤ digits.length) :
    specGenFormat (generateCorrelationId t digits) = true := by
  have hdata : (generateCorrelationId t digits).data =
      "gateway-".data ++ (natDecimalChars t ++ '-' :: randomSuffixChars digits) := by
    unfold generateCorrelationId
    rw [strData_append, strData_append, strData_append, strData_mk, strData_mk]
    simp
  unfold specGenFormat
  have htl : (generateCorrelationId t digits).toList =
      "gateway-".toList ++ (natDecimalChars t ++ '-' :: randomSuffixChars digits) := hdata
  rw [htl]
  unfold specGenFormatChars
  rw [dropLead_append]
  rw [Option.map_some', Option.getD_some]
  rw [splitDigits_append (natDecimalChars_digits t) (by decide)]
  cases hnd : natDecimalChars t with
  | nil => exact absurd hnd (natDecimalChars_ne_nil t)
  | cons c cs =>
    have hlen9 : (randomSuffixChars digits).length = 9 := by
      rw [randomSuffixChars_length, Nat.min_eq_left hlen]
    have hall : (randomSuffixChars digits).all isLowerAlnum = true := by
      rw [List.all_eq_true]
      exact randomSuffixChars_lowerAlnum digits
    simp [specGenFormatTail, hlen9, hall]

/-- C7, as written: the claim's generated-format half fails on the code.  At
the `Math.random()` draw 0.5 — a value the generator can return, printed
`0.i` by `toString(36)`, so `substr(2, 9)` keeps the single character `i` —
the generated id is `gateway-1700000000000-i`, whose suffix has one
character, not nine. -/
theorem correlation_id_nine_char_counterexample :
    specGenFormat (generateCorrelationId 1700000000000 [(18 : Fin 36)]) = false := by
  decide

/-- C7 (amended): a supplied non-empty correlation id is returned unchanged —
no normalization or truncation, for arbitrary content; a generated id is
`gateway-<unixMillis>-<suffix>` where the suffix consists of the first at
most nine base-36 fraction digits of the random draw — always lowercase
alphanumeric and of length `min 9 (draw digits)`, matching the spec's
9-character format whenever `Math.random()`'s printed base-36 expansion has
at least nine digits (all but a negligible set of draws), but shorter when
the expansion terminates earlier. -/
theorem correlation_id_resolution (s : String) (t : Nat) (digits : List (Fin 36)) :
    (s ≠ "" → resolveCorrelationId (some s) t digits = s) ∧
    ((randomSuffixChars digits).length = min 9 digits.length ∧
      ∀ c ∈ randomSuffixChars digits, isLowerAlnum c = true) ∧
    (9 ≤ digits.length → specGenFormat (generateCorrelationId t digits) = true) := by
  refine ⟨?_, ⟨randomSuffixChars_length digits, randomSuffixChars_lowerAlnum digits⟩, ?_⟩
  · intro hs
    simp [resolveCorrelationId, hs]
  · intro hlen
    exact specGenFormat_of_long_draw t digits hlen

/-- Witness for the amended C7 at concrete inputs: a non-empty unicode id is
echoed unchanged, and a nine-digit draw yields a spec-format id. -/
theorem correlation_id_resolution_witness :
    resolveCorrelationId (some "corr-🚀-\u0001") 7 [] = "corr-🚀-\u0001" ∧
    specGenFormat
      (generateCorrelationId 1700000000123 (List.replicate 9 ((35 : Fin 36)))) = true :=
  ⟨(correlation_id_resolution "corr-🚀-\u0001" 7 []).1 (by decide),
   (correlation_id_resolution "" 1700000000123 (List.replicate 9 ((35 : Fin 36)))).2.2
     (by decide)⟩

/-- C1: at the failing input — the valid mock Facebook event posted with no
`x-correlation-id` header — the single envelope handed to the durable log
carries the correlation id generated by the first draw (inside
`MessagingRepository.publishEvent`), while the ingestion response carries a
second, independently generated id (`WebhookController.receiveWebhook`
line 29), and the two differ: a subscriber reads back a correlation id the
caller never saw. -/
theorem correlation_id_divergence :
    (receiveWebhook mockBody none twoDrawState).1 =
      .ok ⟨true, some "fb-event-123", "gateway-1700000000100-bbbbbbbbb"⟩ ∧
    ((receiveWebhook mockBody none twoDrawState).2.published.map
        (fun p => p.2.getField "correlationId")) =
      [some (.str "gateway-1700000000100-aaaaaaaaa")] ∧
    ("gateway-1700000000100-bbbbbbbbb" : String) ≠ "gateway-1700000000100-aaaaaaaaa" := by
  refine ⟨by rfl, by rfl, by decide⟩

/-- C2: a message whose handler invocation throws is caught by the wrapper
the collector subscription registers: it becomes exactly one error-log entry
carrying the subject and the serialized payload, nothing propagates into the
subscription loop, the message is not retried, and the loop continues with
the remaining messages exactly as if the failing message had succeeded. -/
theorem subscription_error_isolation {α : Type}
    (handler : Json → Option Json → Except String α) (subject : String)
    (a : Json) (e : String) (rest : List Json)
    (ha : handler a (a.getField "correlationId") = .error e) :
    runSubscription handler subject (a :: rest) =
      .inr ⟨subject, Json.serialize a, e⟩ :: runSubscription handler subject rest := by
  simp [runSubscription, wrapMessage, ha]

/-- Witness for C2: a throwing handler on message A is logged and message B
is still delivered to the handler afterwards. -/
theorem subscription_error_isolation_witness :
    runSubscription failingHandler "events.facebook.top"
        [.obj [("eventId", .str "a")], .obj [("eventId", .str "b")]] =
      .inr ⟨"events.facebook.top", Json.serialize (.obj [("eventId", .str "a")]), "boom"⟩ ::
        runSubscription failingHandler "events.facebook.top" [.obj [("eventId", .str "b")]] :=
  subscription_error_isolation failingHandler "events.facebook.top"
    (.obj [("eventId", .str "a")]) "boom" [.obj [("eventId", .str "b")]] rfl

/-- C3: a raw payload failing validation makes `processEvent` record exactly
one `failed` metric whose source/event_type labels are taken best-effort
from the raw payload (defaulting to `unknown` when the field is absent,
which covers payloads that are not objects at all), rethrow the validation
error unchanged, and publish nothing. -/
theorem failed_validation_metric (j : Json) (cid : Option String)
    (st : GatewayState) (m : String) (hval : validateEvent j = .error m) :
    (processEvent j cid st).1 = .error m ∧
    (processEvent j cid st).2.published = st.published ∧
    (processEvent j cid st).2.metrics = st.metrics ++
      [⟨.failed, jsLabel j "source", jsLabel j "eventType", none, some m⟩] ∧
    (j.getField "source" = none → jsLabel j "source" = .str "unknown") ∧
    (j.getField "eventType" = none → jsLabel j "eventType" = .str "unknown") := by
  refine ⟨?_, ?_, ?_, ?_, ?_⟩
  · simp [processEvent, hval]
  · simp [processEvent, hval, GatewayState.record]
  · simp [processEvent, hval, GatewayState.record]
  · intro h
    simp [jsLabel, h]
  · intro h
    simp [jsLabel, h]

/-- Witness for C3 at end-to-end scenario 2: the payload `{invalid:"data"}`
is rejected before any publish, and its failed-metric source label defaults
to `unknown`. -/
theorem failed_validation_metric_witness :
    (processEvent invalidPayload none emptyState).1 =
      .error ("Invalid event format: " ++ zodIssueText) ∧
    (processEvent invalidPayload none emptyState).2.published = [] ∧
    jsLabel invalidPayload "source" = .str "unknown" :=
  ⟨(failed_validation_metric invalidPayload none emptyState
      ("Invalid event format: " ++ zodIssueText) rfl).1,
   (failed_validation_metric invalidPayload none emptyState
      ("Invalid event format: " ++ zodIssueText) rfl).2.1,
   (failed_validation_metric invalidPayload none emptyState
      ("Invalid event format: " ++ zodIssueText) rfl).2.2.2.1 rfl⟩

/-- C4: any input missing `data.user`, or whose `data.user.gender` is not a
string, or whose `data.user.age` is not a number, is rejected by
`validateFacebookEvent` with the message naming the violated shape:
`Invalid Facebook event format: ...` mentions `Facebook event format`. -/
theorem facebook_shape_error_naming (j : Json)
    (h : (j.getField "data").bind (fun d => d.getField "user") = none ∨
      (∃ vg, ((j.getField "data").bind (fun d => d.getField "user")).bind
          (fun u => u.getField "gender") = some vg ∧ vg.asStr = none) ∨
      (∃ va, ((j.getField "data").bind (fun d => d.getField "user")).bind
          (fun u => u.getField "age") = some va ∧ va.asNum = none)) :
    validateFacebookEvent j = .error facebookErrorMessage ∧
    strMentions facebookErrorMessage "Facebook event format" = true := by
  refine ⟨?_, by decide⟩
  cases hp : facebookSchemaParse j with
  | none => simp [validateFacebookEvent, hp]
  | some e =>
    exfalso
    obtain ⟨hsrc, d, u, r, hd, hu, hr⟩ := facebookParse_some hp
    obtain ⟨⟨va, hva, hva2⟩, vg, hvg, hvg2⟩ := facebookUserParse_some hr
    have hpath : (j.getField "data").bind (fun x => x.getField "user") = some u := by
      rw [hd, Option.some_bind, hu]
    rcases h with h | ⟨vg', hvg', hvg'2⟩ | ⟨va', hva', hva'2⟩
    · rw [hpath] at h
      exact Option.noConfusion h
    · rw [hpath, Option.some_bind, hvg] at hvg'
      obtain rfl : vg = vg' := Option.some.inj hvg'
      rw [hvg'2] at hvg2
      exact Bool.noConfusion hvg2
    · rw [hpath, Option.some_bind, hva] at hva'
      obtain rfl : va = va' := Option.some.inj hva'
      rw [hva'2] at hva2
      exact Bool.noConfusion hva2

/-- Witness for C4: an empty object has no `data.user` and is rejected with
the shape-naming message. -/
theorem facebook_shape_error_naming_witness :
    validateFacebookEvent (.obj []) = .error facebookErrorMessage ∧
    strMentions facebookErrorMessage "Facebook event format" = true :=
  facebook_shape_error_naming (.obj []) (Or.inl rfl)

/-- C5: validation is discriminating and total — no input satisfies both
source-specific schemas, and whatever the combined validator accepts
satisfies one of them. -/
theorem validation_exclusive_total (j : Json) :
    ¬((facebookSchemaParse j).isSome ∧ (tiktokSchemaParse j).isSome) ∧
    ((validateEvent j).isOk = true →
      (facebookSchemaParse j).isSome ∨ (tiktokSchemaParse j).isSome) := by
  constructor
  · rintro ⟨hf, ht⟩
    obtain ⟨ef, hef⟩ := Option.isSome_iff_exists.mp hf
    obtain ⟨et, het⟩ := Option.isSome_iff_exists.mp ht
    have h1 := (facebookParse_some hef).1
    have h2 := (tiktokParse_some het).1
    rw [h1] at h2
    simp at h2
  · intro hok
    unfold validateEvent at hok
    cases hf : facebookSchemaParse j with
    | some e => simp [hf]
    | none =>
      rw [hf] at hok
      cases ht : tiktokSchemaParse j with
      | some e => simp [ht]
      | none =>
        rw [ht] at hok
        exact absurd hok (by simp [Except.isOk, Except.toBool])

/-- Witness for C5: the mock Facebook event is accepted by the combined
validator and indeed satisfies one of the two schemas. -/
theorem validation_exclusive_total_witness :
    (facebookSchemaParse mockBody).isSome ∨ (tiktokSchemaParse mockBody).isSome :=
  (validation_exclusive_total mockBody).2 (by rfl)

/-- C9: a numeric-looking string in `data.user.age` makes the Facebook
validator fail, and one in `data.user.followers` makes the TikTok validator
fail — no string-to-number coercion is performed. -/
theorem numeric_string_not_coerced (j : Json) (s : String) :
    (((j.getField "data").bind (fun d => d.getField "user")).bind
        (fun u => u.getField "age") = some (.str s) →
      validateFacebookEvent j = .error facebookErrorMessage) ∧
    (((j.getField "data").bind (fun d => d.getField "user")).bind
        (fun u => u.getField "followers") = some (.str s) →
      validateTiktokEvent j = .error tiktokErrorMessage) := by
  constructor
  · intro h
    cases hp : facebookSchemaParse j with
    | none => simp [validateFacebookEvent, hp]
    | some e =>
      exfalso
      obtain ⟨hsrc, d, u, r, hd, hu, hr⟩ := facebookParse_some hp
      obtain ⟨⟨va, hva, hva2⟩, _⟩ := facebookUserParse_some hr
      rw [hd, Option.some_bind, hu, Option.some_bind, hva] at h
      obtain rfl : va = Json.str s := Option.some.inj h
      simp [Json.asNum] at hva2
  · intro h
    cases hp : tiktokSchemaParse j with
    | none => simp [validateTiktokEvent, hp]
    | some e =>
      exfalso
      obtain ⟨hsrc, d, u, r, hd, hu, hr⟩ := tiktokParse_some hp
      obtain ⟨vf, hvf, hvf2⟩ := tiktokUserParse_some hr
      rw [hd, Option.some_bind, hu, Option.some_bind, hvf] at h
      obtain rfl : vf = Json.str s := Option.some.inj h
      simp [Json.asNum] at hvf2

/-- Witness for C9: `age: "28"` and `followers: "1500"` are both rejected. -/
theorem numeric_string_not_coerced_witness :
    validateFacebookEvent
      (.obj [("data", .obj [("user", .obj [("age", .str "28")])])]) =
      .error facebookErrorMessage ∧
    validateTiktokEvent
      (.obj [("data", .obj [("user", .obj [("followers", .str "1500")])])]) =
      .error tiktokErrorMessage :=
  ⟨(numeric_string_not_coerced
      (.obj [("data", .obj [("user", .obj [("age", .str "28")])])]) "28").1 rfl,
   (numeric_string_not_coerced
      (.obj [("data", .obj [("user", .obj [("followers", .str "1500")])])]) "1500").2 rfl⟩

/-- C6: for every validated event, the pipeline hands exactly one envelope to
the durable log, on the subject `events.<source>.<funnelStage>` built from
the event's discriminants, and the envelope is the event's fields plus a
`correlationId` (supplied or generated) and the system-assigned
`receivedAt`. -/
theorem publish_envelope_shape (e : Event) (cid : Option String) (st : GatewayState) :
    (processEvent e.render cid st).2.published =
      st.published ++
        [("events." ++ e.source ++ "." ++ e.stageStr,
          .obj (e.renderFields ++
            [("correlationId", .str (resolveOrGenerate cid st).1),
             ("receivedAt", .str st.nowIso)]))] := by
  cases cid with
  | none =>
    simp [processEvent, eventValidate_render, publishEvent, buildSubject,
      resolveOrGenerate, genCorrelationId, GatewayState.record, GatewayState.peekDraw]
  | some s =>
    by_cases hs : s = "" <;>
      simp [processEvent, eventValidate_render, publishEvent, buildSubject,
        resolveOrGenerate, genCorrelationId, GatewayState.record, GatewayState.peekDraw, hs]

/-- C8: the combined validator is an idempotent pass-through on valid events:
parsing the JSON rendering of any valid Facebook or TikTok event succeeds
and returns the event unchanged, nested user and engagement structures
included. -/
theorem validate_pass_through (e : Event) : validateEvent e.render = .ok e :=
  eventValidate_render e

/-- C10: a `facebook` collector subscribes to exactly the two Facebook
subjects under the consumer groups `facebook-collector-top` and
`facebook-collector-bottom` (analogously for `tiktok`); an unrecognized or
unset `COLLECTOR_TYPE` yields no subscriptions and a warning, and startup
completes. -/
theorem collector_startup (env : Option String) :
    (collectorTypeOf env = "facebook" →
      (collectorInit (collectorTypeOf env)).subscriptions =
        [("events.facebook.top", "facebook-collector-top"),
         ("events.facebook.bottom", "facebook-collector-bottom")]) ∧
    (collectorTypeOf env = "tiktok" →
      (collectorInit (collectorTypeOf env)).subscriptions =
        [("events.tiktok.top", "tiktok-collector-top"),
         ("events.tiktok.bottom", "tiktok-collector-bottom")]) ∧
    (collectorTypeOf env ≠ "facebook" → collectorTypeOf env ≠ "tiktok" →
      (collectorInit (collectorTypeOf env)).subscriptions = [] ∧
      (collectorInit (collectorTypeOf env)).warnings ≠ []) := by
  refine ⟨?_, ?_, ?_⟩
  · intro h
    simp [collectorInit, h]
  · intro h
    simp [collectorInit, h]
  · intro h1 h2
    constructor <;> simp [collectorInit, h1, h2]

/-- Witness for C10: a `facebook` collector makes the two Facebook
subscriptions; an unset `COLLECTOR_TYPE` makes none and leaves a warning. -/
theorem collector_startup_witness :
    (collectorInit (collectorTypeOf (some "facebook"))).subscriptions =
      [("events.facebook.top", "facebook-collector-top"),
       ("events.facebook.bottom", "facebook-collector-bottom")] ∧
    (collectorInit (collectorTypeOf none)).subscriptions = [] ∧
    (collectorInit (collectorTypeOf none)).warnings ≠ [] :=
  ⟨(collector_startup (some "facebook")).1 (by decide),
   ((collector_startup none).2.2 (by decide) (by decide)).1,
   ((collector_startup none).2.2 (by decide) (by decide)).2⟩
